import Mathlib

/-!
# Gosh Transfer — verification of the transfer engine against its source

A shallow embedding of the Rust sources under `src/src-tauri/src/`
(`server.rs`, `client.rs`, `history.rs`, `types.rs`) together with proofs
about the embedded operations.  Each Rust function is translated into an
executable Lean definition; HTTP handlers become pure state transformers
over an explicit server state, the disk becomes a finite map from
normalized paths to byte lists, and the HTTP body stream becomes a list
of chunks, each either delivered bytes or a stream error.
-/

namespace GoshTransfer

/-! ## Association maps

`server.rs` keeps `HashMap<String, _>` collections.  We model them as
association lists with unique keys: `insertA` overwrites an existing
binding, exactly as `HashMap::insert` does for lookups. -/

/-- Bytes of a file body; each element is one byte value. -/
abbrev Bytes := List Nat

/-- Lookup in an association list, first binding wins. -/
def lookupA {κ α : Type} [DecidableEq κ] (k : κ) : List (κ × α) → Option α
  | [] => none
  | (k', v) :: rest => if k' = k then some v else lookupA k rest

/-- Remove every binding of key `k`. -/
def eraseA {κ α : Type} [DecidableEq κ] (k : κ) (m : List (κ × α)) : List (κ × α) :=
  m.filter (fun p => p.1 ≠ k)

/-- Insert with overwrite, mirroring `HashMap::insert` observationally. -/
def insertA {κ α : Type} [DecidableEq κ] (k : κ) (v : α) (m : List (κ × α)) : List (κ × α) :=
  (k, v) :: eraseA k m

/-- Key membership, mirroring `HashMap::contains_key`. -/
def memA {κ α : Type} [DecidableEq κ] (k : κ) (m : List (κ × α)) : Bool :=
  (lookupA k m).isSome

/-! ## Rust paths

`PathBuf` values on Unix, restricted to what the code manipulates:
`download_dir.join(&file_info.name)` (`server.rs` line 227) and
`path.file_name()` (`client.rs`).  A path is a flag (absolute?) plus a
list of components; `"."` and empty components vanish as in
`Path::components`, `".."` is kept. -/

structure RustPath where
  absolute : Bool
  components : List String
deriving DecidableEq, Repr

/-- Split a character list at `/` separators (executable splitting that
the kernel can evaluate). -/
def splitSlash (cs : List Char) (acc : List Char) : List String :=
  match cs with
  | [] => [String.mk acc.reverse]
  | c :: rest =>
    if c = '/' then String.mk acc.reverse :: splitSlash rest []
    else splitSlash rest (c :: acc)

/-- Parse a path string the way `Path::new` decomposes it on Unix. -/
def strToPath (s : String) : RustPath :=
  { absolute := match s.data with | c :: _ => c = '/' | [] => false
    components := (splitSlash s.data []).filter (fun c => c ≠ "" ∧ c ≠ ".") }

/-- `PathBuf::join`: an absolute right operand replaces the left one. -/
def RustPath.join (p q : RustPath) : RustPath :=
  if q.absolute then q else { absolute := p.absolute, components := p.components ++ q.components }

/-- One step of lexical path resolution: `".."` pops the last component. -/
def normStep (stack : List String) (c : String) : List String :=
  if c = ".." then stack.dropLast else stack ++ [c]

/-- Resolve `".."` components of an absolute path lexically
(at the root, `".."` stays at the root, as the OS resolves it). -/
def RustPath.normalize (p : RustPath) : RustPath :=
  { absolute := p.absolute, components := p.components.foldl normStep [] }

/-- `Path::file_name`: the final component, unless it is `".."`. -/
def RustPath.fileName (p : RustPath) : Option String :=
  match p.components.getLast? with
  | some c => if c = ".." then none else some c
  | none => none

/-- `under dl p`: the resolved path `p` stays inside directory `dl`
(both absolute, compared on normalized components). -/
def under (dl p : RustPath) : Bool :=
  p.absolute && dl.absolute &&
    List.isPrefixOf dl.normalize.components p.normalize.components

/-! ## Data model (`types.rs`)

Timestamps (`chrono::DateTime<Utc>`) are modelled as `Nat` ticks supplied
by the caller; UUIDs as strings supplied by the caller. -/

/-- `types.rs` `TransferFile`. -/
structure TransferFile where
  name : String
  size : Nat
  mimeType : Option String
  id : String
deriving DecidableEq, Repr

/-- `types.rs` `TransferRequest`. -/
structure TransferRequest where
  transferId : String
  senderName : Option String
  files : List TransferFile
  totalSize : Nat
deriving DecidableEq, Repr

/-- `types.rs` `TransferResponse`. -/
structure TransferResponse where
  accepted : Bool
  message : Option String
  token : Option String
deriving DecidableEq, Repr

/-- `types.rs` `PendingTransfer`. -/
structure PendingTransfer where
  id : String
  sourceIp : String
  senderName : Option String
  files : List TransferFile
  totalSize : Nat
  receivedAt : Nat
deriving DecidableEq, Repr

/-- `types.rs` `TransferProgress`. -/
structure TransferProgress where
  transferId : String
  currentFile : Option String
  bytesTransferred : Nat
  totalBytes : Nat
  speedBps : Nat
deriving DecidableEq, Repr

/-- `types.rs` `AppSettings` (fields the server reads). -/
structure AppSettings where
  port : Nat
  deviceName : String
  downloadDir : RustPath
  trustedHosts : List String
  notificationsEnabled : Bool
deriving DecidableEq, Repr

/-- `types.rs` `ResolveResult`. -/
structure ResolveResult where
  hostname : String
  ips : List String
  success : Bool
  error : Option String
deriving DecidableEq, Repr

/-! ## Receive server (`server.rs`) -/

/-- `server.rs` `ServerEvent`. -/
inductive ServerEvent where
  | transferRequest (transfer : PendingTransfer)
  | progress (progress : TransferProgress)
  | transferComplete (transferId : String)
  | transferFailed (transferId : String) (error : String)
deriving DecidableEq, Repr

/-- `server.rs` `ServerState`: the fields the handlers touch.  The
`event_tx` broadcast channel is modelled by returning the list of
emitted events. -/
structure ServerState where
  settings : AppSettings
  pendingTransfers : List (String × PendingTransfer)
  approvedTokens : List (String × String)
  downloadDir : RustPath
deriving DecidableEq, Repr

/-- `server.rs` `ChunkParams` query parameters. -/
structure ChunkParams where
  transferId : String
  fileId : String
  token : String
deriving DecidableEq, Repr

/-- The disk: finite map from normalized absolute paths to file bytes. -/
abbrev Disk := List (RustPath × Bytes)

/-- Disk lookup by normalized path. -/
def diskGet (d : Disk) (p : RustPath) : Option Bytes :=
  lookupA p.normalize d

/-- Store `bytes` at normalized path `p`, replacing any previous file
(`File::create` truncates an existing file). -/
def diskPut (d : Disk) (p : RustPath) (bytes : Bytes) : Disk :=
  insertA p.normalize bytes d

/-- Append bytes to the open file at `p`
(the handle obtained from `File::create`). -/
def diskAppend (d : Disk) (p : RustPath) (data : Bytes) : Disk :=
  diskPut d p ((diskGet d p).getD [] ++ data)

/-- Result of `transfer_request_handler`: HTTP status plus JSON body.
`axum::Json` responds with status 200. -/
structure TransferHandlerResult where
  status : Nat
  response : TransferResponse
deriving DecidableEq, Repr

/-- The pending record `transfer_request_handler` builds from a request
(`server.rs` lines 135–142). -/
def pendingOfRequest (req : TransferRequest) (now : Nat) : PendingTransfer :=
  { id := req.transferId, sourceIp := "unknown", senderName := req.senderName,
    files := req.files, totalSize := req.totalSize, receivedAt := now }

/-- `server.rs` `transfer_request_handler` (lines 124–182).  `now` stands
for `chrono::Utc::now()` and `freshToken` for `Uuid::new_v4()` (consumed
only on the trusted branch).  Mirrors the source:

* build a `PendingTransfer` with `source_ip = "unknown"`;
* `let is_trusted = false;  // TODO: Check against trusted_hosts`;
* if trusted: insert a token into `approved_tokens`, answer
  `accepted=true`;
* otherwise insert the pending record, emit `TransferRequest`, answer
  `accepted=false, "Awaiting user approval"`.

No validation of `total_size` or of duplicate file ids appears in the
source. -/
def transfer_request_handler (st : ServerState) (request : TransferRequest)
    (now : Nat) (freshToken : String) :
    ServerState × TransferHandlerResult × List ServerEvent :=
  let pending : PendingTransfer :=
    { id := request.transferId
      sourceIp := "unknown"
      senderName := request.senderName
      files := request.files
      totalSize := request.totalSize
      receivedAt := now }
  let is_trusted := false
  if is_trusted then
    ({ st with approvedTokens := insertA request.transferId freshToken st.approvedTokens },
     { status := 200
       response :=
        { accepted := true
          message := some "Auto-accepted from trusted host"
          token := some freshToken } },
     [])
  else
    ({ st with pendingTransfers := insertA request.transferId pending st.pendingTransfers },
     { status := 200
       response :=
        { accepted := false
          message := some "Awaiting user approval"
          token := none } },
     [ServerEvent.transferRequest pending])

/-- One element of the request body stream: delivered bytes or a stream
error message. -/
abbrev BodyChunk := Except String Bytes

/-- Result of `chunk_upload_handler`: HTTP status plus the JSON body
fields the claims mention. -/
structure ChunkHandlerResult where
  status : Nat
  file : Option String
  bytesReceived : Option Nat
  error : Option String
deriving DecidableEq, Repr

/-- The `while let Some(chunk) = stream.next()` loop of
`chunk_upload_handler` (lines 240–295): accumulate `bytes_received`,
append each chunk to the open file, emit a `Progress` event per chunk;
a stream error returns 500 at once (the partial file stays on disk —
the source has no cleanup).  At end of stream, flush and answer 200
with `bytes_received` — the source never compares it to the declared
size. -/
def writeStream (tid : String) (fileInfo : TransferFile) (target : RustPath) :
    Disk → Nat → List ServerEvent → List BodyChunk →
    ChunkHandlerResult × Disk × List ServerEvent
  | disk, bytes, evs, [] =>
    ({ status := 200, file := some fileInfo.name, bytesReceived := some bytes, error := none },
     disk, evs)
  | disk, bytes, evs, Except.ok data :: rest =>
    let bytes' := bytes + data.length
    let disk' := diskAppend disk target data
    let ev := ServerEvent.progress
      { transferId := tid
        currentFile := some fileInfo.name
        bytesTransferred := bytes'
        totalBytes := fileInfo.size
        speedBps := 0 }
    writeStream tid fileInfo target disk' bytes' (evs ++ [ev]) rest
  | disk, _bytes, evs, Except.error e :: _ =>
    ({ status := 500, file := none, bytesReceived := none,
       error := some ("Stream error: " ++ e) }, disk, evs)

/-- `server.rs` `chunk_upload_handler` (lines 185–296).  Mirrors the
source step by step:

1. look up `approved_tokens[transfer_id]`; on mismatch or absence
   answer 401 (no state change, no disk change);
2. read `download_dir`;
3. look up `pending_transfers[transfer_id]`; absent → 404;
4. find the file with id `file_id` in the transfer; absent → 404;
5. `let file_path = download_dir.join(&file_info.name)` — the declared
   name is joined verbatim: no basename extraction, no path-traversal
   check;
6. `File::create(&file_path)` truncates/creates the target (modelled as
   always succeeding);
7. stream the body (`writeStream`).

The handler never mutates the two maps; the returned `ServerState` is
the input state in every branch. -/
def chunk_upload_handler (st : ServerState) (disk : Disk) (params : ChunkParams)
    (body : List BodyChunk) :
    ServerState × ChunkHandlerResult × Disk × List ServerEvent :=
  let expected_token := lookupA params.transferId st.approvedTokens
  if expected_token ≠ some params.token then
    (st, { status := 401, file := none, bytesReceived := none,
           error := some "Invalid or expired token" }, disk, [])
  else
    let download_dir := st.downloadDir
    match lookupA params.transferId st.pendingTransfers with
    | none =>
      (st, { status := 404, file := none, bytesReceived := none,
             error := some "Transfer not found" }, disk, [])
    | some transfer =>
      match transfer.files.find? (fun f => f.id = params.fileId) with
      | none =>
        (st, { status := 404, file := none, bytesReceived := none,
               error := some "File not found in transfer" }, disk, [])
      | some file_info =>
        let file_path := download_dir.join (strToPath file_info.name)
        let disk1 := diskPut disk file_path []
        let out := writeStream params.transferId file_info file_path disk1 0 [] body
        (st, out.1, out.2.1, out.2.2)

/-- The target path the handler writes for a declared file name
(`server.rs` line 227). -/
def targetOf (downloadDir : RustPath) (name : String) : RustPath :=
  downloadDir.join (strToPath name)

/-! ## Transfer history (`history.rs`) -/

/-- `types.rs` `TransferDirection`. -/
inductive TransferDirection where
  | sent
  | received
deriving DecidableEq, Repr

/-- `types.rs` `TransferStatus`. -/
inductive TransferStatus where
  | pending
  | inProgress
  | completed
  | failed
  | rejected
deriving DecidableEq, Repr

/-- `types.rs` `TransferRecord`. -/
structure TransferRecord where
  id : String
  direction : TransferDirection
  status : TransferStatus
  peerAddress : String
  files : List TransferFile
  totalSize : Nat
  bytesTransferred : Nat
  startedAt : Nat
  completedAt : Option Nat
  error : Option String
deriving DecidableEq, Repr

/-- `history.rs` line 12. -/
def MAX_HISTORY_ENTRIES : Nat := 100

/-- The `while records.len() > MAX_HISTORY_ENTRIES { records.remove(0) }`
loop of `HistoryStore::add` (`history.rs` lines 95–97). -/
def enforceMaxEntries (records : List TransferRecord) : List TransferRecord :=
  if MAX_HISTORY_ENTRIES < records.length then
    enforceMaxEntries records.tail
  else records
termination_by records.length
decreasing_by
  simp only [List.length_tail]
  omega

/-- `history.rs` `HistoryStore::add` (lines 89–101), acting on the
in-memory record list (persistence to disk is a collaborator concern). -/
def HistoryStore.add (records : List TransferRecord) (record : TransferRecord) :
    List TransferRecord :=
  enforceMaxEntries (records ++ [record])

/-! ## Address resolution (`client.rs` `TransferClient::resolve_address`)

The standard library's literal-IP parser (`str::parse::<IpAddr>`) and the
resolver behind `to_socket_addrs` are environment code, so they enter the
model as parameters: `parseIp` returns the parsed address when the input
is a literal, `ipToString` renders an address back to text
(`IpAddr::to_string`), and `lookupHost` performs the name resolution for
`"{address}:0"`, already projected to the textual IPs of the returned
socket addresses. -/

def resolve_address {α : Type} (parseIp : String → Option α) (ipToString : α → String)
    (lookupHost : String → Except String (List String)) (address : String) : ResolveResult :=
  match parseIp address with
  | some ip =>
    { hostname := address, ips := [ipToString ip], success := true, error := none }
  | none =>
    match lookupHost address with
    | Except.ok addrs =>
      let ips := addrs
      if ips.isEmpty then
        { hostname := address, ips := [], success := false,
          error := some "No IP addresses found" }
      else
        { hostname := address, ips := ips, success := true, error := none }
    | Except.error e =>
      { hostname := address, ips := [], success := false,
        error := some ("DNS resolution failed: " ++ e) }

/-! ## Send client (`client.rs`) -/

/-- `types.rs` `AppError` (the variants the client constructs). -/
inductive AppError where
  | network (msg : String)
  | connectionRefused (msg : String)
  | transferRejected
  | fileIo (msg : String)
  | serialization (msg : String)
deriving DecidableEq, Repr

/-- One HTTP request the client puts on the wire. -/
inductive WireMsg where
  | transferPost (request : TransferRequest)
  | chunkPost (transferId : String) (fileId : String) (token : String) (body : Bytes)
deriving DecidableEq, Repr

/-- Environment of the client: `Uuid::new_v4` as a counter-indexed
generator, the filesystem, MIME guessing, and the peer's responses. -/
structure ClientEnv where
  gen : Nat → String
  stat : RustPath → Option Nat
  readFile : RustPath → Option Bytes
  mimeGuess : RustPath → Option String
  peer : TransferRequest → Except String TransferResponse
  chunkAccepted : String → String → String → Bool

/-- `client.rs` `TransferClient::request_transfer` (lines 147–189):
generate `transfer_id = Uuid::new_v4()`, compute `total_size`, POST the
request, parse the response.  Returns the result, the next UUID counter,
and the wire log.  Note the function does not hand the generated
`transfer_id` back to its caller — only the response. -/
def request_transfer (env : ClientEnv) (ctr : Nat) (files : List TransferFile)
    (senderName : Option String) :
    Except AppError TransferResponse × Nat × List WireMsg :=
  let transfer_id := env.gen ctr
  let total_size := (files.map (fun f => f.size)).sum
  let request : TransferRequest :=
    { transferId := transfer_id, senderName := senderName,
      files := files, totalSize := total_size }
  match env.peer request with
  | Except.ok resp => (Except.ok resp, ctr + 1, [WireMsg.transferPost request])
  | Except.error e =>
    (Except.error (AppError.network ("Transfer request failed: " ++ e)), ctr + 1,
     [WireMsg.transferPost request])

/-- `client.rs` `TransferClient::send_file` (lines 192–252): open and
read the file, POST its body to `/chunk` with the given `transfer_id`,
`file_id` and `token`, fail on a non-2xx status. -/
def send_file (env : ClientEnv) (transferId token fileId : String) (filePath : RustPath) :
    Except AppError Unit × List WireMsg :=
  match env.readFile filePath with
  | none => (Except.error (AppError.fileIo "Failed to open file"), [])
  | some buffer =>
    let msg := WireMsg.chunkPost transferId fileId token buffer
    if env.chunkAccepted transferId fileId token then
      (Except.ok (), [msg])
    else
      (Except.error (AppError.network "Server returned error"), [msg])

/-- The metadata loop at the start of `send_files` (lines 263–285):
stat each path, take its basename as the declared name, guess the MIME
type, and mint a fresh UUID per file. -/
def buildFileList (env : ClientEnv) (ctr : Nat) :
    List RustPath → Except AppError (List TransferFile × Nat)
  | [] => Except.ok ([], ctr)
  | path :: rest =>
    match env.stat path with
    | none => Except.error (AppError.fileIo "Failed to get file info")
    | some size =>
      match path.fileName with
      | none => Except.error (AppError.fileIo "Invalid file path")
      | some name =>
        let f : TransferFile :=
          { name := name, size := size, mimeType := env.mimeGuess path, id := env.gen ctr }
        match buildFileList env (ctr + 1) rest with
        | Except.ok (fs, ctr') => Except.ok (f :: fs, ctr')
        | Except.error e => Except.error e

/-- The upload loop of `send_files` (lines 303–308). -/
def sendFilesLoop (env : ClientEnv) (transferId token : String) :
    List (TransferFile × RustPath) → Except AppError Unit × List WireMsg
  | [] => (Except.ok (), [])
  | (f, path) :: rest =>
    match send_file env transferId token f.id path with
    | (Except.ok _, log) =>
      let (r, log') := sendFilesLoop env transferId token rest
      (r, log ++ log')
    | (Except.error e, log) => (Except.error e, log)

/-- `client.rs` `TransferClient::send_files` (lines 255–311).  After the
request is accepted, the source executes
`let transfer_id = Uuid::new_v4().to_string(); // This should come from the request`
— a fresh UUID, not the id that `request_transfer` sent; the chunk
uploads carry that fresh id. -/
def send_files (env : ClientEnv) (filePaths : List RustPath) (senderName : Option String) :
    Except AppError Unit × List WireMsg :=
  match buildFileList env 0 filePaths with
  | Except.error e => (Except.error e, [])
  | Except.ok (files, ctr) =>
    let (respE, ctr', log1) := request_transfer env ctr files senderName
    match respE with
    | Except.error e => (Except.error e, log1)
    | Except.ok resp =>
      if !resp.accepted then
        (Except.error AppError.transferRejected, log1)
      else
        match resp.token with
        | none => (Except.error (AppError.network "No token received"), log1)
        | some token =>
          let transfer_id := env.gen ctr'
          let (r, log2) := sendFilesLoop env transfer_id token (files.zip filePaths)
          (r, log1 ++ log2)

/-! ## Engine state machine

The receive-side collections evolve under the `src/` request handler and
the control operations of the engine facade.  The facade operations
(`accept_transfer`, `reject_transfer`, completion and failure clean-up)
live in the external `gosh_lan_transfer` crate, absent from `src/`
(`commands.rs` and `lib.rs` only call them), so they are modelled from
the spec. -/

/-- Receiver-side engine state: the `src/server.rs` state plus the
`rejected` collection of §4.2 (`transfer_id → reason`), which has no
counterpart in `src/`. -/
structure EngineState where
  server : ServerState
  rejected : List (String × String)
deriving DecidableEq, Repr

/-- One receive-side transition. -/
inductive EngineOp where
  | request (request : TransferRequest) (now : Nat) (freshToken : String)
  | accept (transferId : String) (token : String)
  | reject (transferId : String) (reason : String)
  | complete (transferId : String)
  | fail (transferId : String) (error : String)
deriving Repr

/-- Receive-side step function.  The `request` transition is the `src/`
handler `transfer_request_handler`.  The others are
`Modelled from the spec:` the engine facade operations missing from
`src/` — `accept_transfer` "moves pending→approved, generates token"
(§4.5), `reject_transfer` "moves pending→rejected" (§4.5), completion
"remove `approved[transfer_id]`, remove the pending record" (§4.3
step 7), and failure "delete the partial file, move the transfer to
`rejected` with the error message" (§4.3 step 8). -/
def engineStep (s : EngineState) : EngineOp → EngineState
  | EngineOp.request req now tok =>
    { s with server := (transfer_request_handler s.server req now tok).1 }
  | EngineOp.accept tid token =>
    if memA tid s.server.pendingTransfers then
      { s with server :=
          { s.server with
            pendingTransfers := eraseA tid s.server.pendingTransfers
            approvedTokens := insertA tid token s.server.approvedTokens } }
    else s
  | EngineOp.reject tid reason =>
    if memA tid s.server.pendingTransfers then
      { s with
        server := { s.server with pendingTransfers := eraseA tid s.server.pendingTransfers }
        rejected := insertA tid reason s.rejected }
    else s
  | EngineOp.complete tid =>
    { s with server :=
        { s.server with
          pendingTransfers := eraseA tid s.server.pendingTransfers
          approvedTokens := eraseA tid s.server.approvedTokens } }
  | EngineOp.fail tid err =>
    { s with
      server :=
        { s.server with
          pendingTransfers := eraseA tid s.server.pendingTransfers
          approvedTokens := eraseA tid s.server.approvedTokens }
      rejected := insertA tid err s.rejected }

/-- Run a sequence of transitions. -/
def engineRun (s : EngineState) (ops : List EngineOp) : EngineState :=
  ops.foldl engineStep s

/-- The §4.2 invariant: each `transfer_id` lies in at most one of
{pending, approved, rejected}. -/
def Separation (s : EngineState) : Prop :=
  ∀ k : String,
    ¬(memA k s.server.pendingTransfers = true ∧ memA k s.server.approvedTokens = true) ∧
    ¬(memA k s.server.pendingTransfers = true ∧ memA k s.rejected = true) ∧
    ¬(memA k s.server.approvedTokens = true ∧ memA k s.rejected = true)

/-- A trace is id-fresh when every `request` carries a `transfer_id`
that is, at that moment, in none of the three collections. -/
def freshAlong (s : EngineState) : List EngineOp → Bool
  | [] => true
  | op :: rest =>
    (match op with
     | EngineOp.request req _ _ =>
       !memA req.transferId s.server.pendingTransfers &&
       !memA req.transferId s.server.approvedTokens &&
       !memA req.transferId s.rejected
     | _ => true) &&
    freshAlong (engineStep s op) rest

/-- The initial state: empty collections. -/
def initialEngineState (settings : AppSettings) : EngineState :=
  { server :=
      { settings := settings
        pendingTransfers := []
        approvedTokens := []
        downloadDir := settings.downloadDir }
    rejected := [] }

/-! ## Concrete sample inputs used by the closed theorems -/

/-- A download directory, `/home/user/Downloads`. -/
def dlDir : RustPath := strToPath "/home/user/Downloads"

/-- Default-ish settings with `dlDir` as download directory. -/
def sampleSettings : AppSettings :=
  { port := 53317, deviceName := "gosh", downloadDir := dlDir,
    trustedHosts := [], notificationsEnabled := true }

/-- An approved transfer whose single file declares the traversal name
`../evil.txt`. -/
def pendingC1 : PendingTransfer :=
  { id := "t1", sourceIp := "unknown", senderName := none,
    files := [{ name := "../evil.txt", size := 1, mimeType := none, id := "f11" }],
    totalSize := 1, receivedAt := 0 }

/-- Server state for the traversal scenario. -/
def stC1 : ServerState :=
  { settings := sampleSettings, pendingTransfers := [("t1", pendingC1)],
    approvedTokens := [("t1", "tok1")], downloadDir := dlDir }

/-- The handler run on the traversal name with a one-byte body. -/
def outC1 : ServerState × ChunkHandlerResult × Disk × List ServerEvent :=
  chunk_upload_handler stC1 [] { transferId := "t1", fileId := "f11", token := "tok1" }
    [Except.ok [65]]

/-- An approved transfer declaring `a.bin` of size 100. -/
def pendingC2 : PendingTransfer :=
  { id := "t2", sourceIp := "unknown", senderName := some "alice",
    files := [{ name := "a.bin", size := 100, mimeType := none, id := "f2" }],
    totalSize := 100, receivedAt := 0 }

/-- Server state for the size-mismatch scenario. -/
def stC2 : ServerState :=
  { settings := sampleSettings, pendingTransfers := [("t2", pendingC2)],
    approvedTokens := [("t2", "tok2")], downloadDir := dlDir }

/-- The handler run with a body of only 99 bytes for the size-100 file. -/
def outC2 : ServerState × ChunkHandlerResult × Disk × List ServerEvent :=
  chunk_upload_handler stC2 [] { transferId := "t2", fileId := "f2", token := "tok2" }
    [Except.ok (List.replicate 99 66)]

/-- An approved transfer with a known token and one small file. -/
def pendingC5 : PendingTransfer :=
  { id := "t5", sourceIp := "unknown", senderName := none,
    files := [{ name := "a.bin", size := 3, mimeType := none, id := "f5" }],
    totalSize := 3, receivedAt := 0 }

/-- Server state for the authorization scenario. -/
def stC5 : ServerState :=
  { settings := sampleSettings, pendingTransfers := [("t5", pendingC5)],
    approvedTokens := [("t5", "good")], downloadDir := dlDir }

/-- An approved transfer with two files both named `report.pdf`. -/
def pendingC6 : PendingTransfer :=
  { id := "t6", sourceIp := "unknown", senderName := none,
    files := [{ name := "report.pdf", size := 10, mimeType := none, id := "f61" },
              { name := "report.pdf", size := 10, mimeType := none, id := "f62" }],
    totalSize := 20, receivedAt := 0 }

/-- Server state for the name-collision scenario. -/
def stC6 : ServerState :=
  { settings := sampleSettings, pendingTransfers := [("t6", pendingC6)],
    approvedTokens := [("t6", "tok6")], downloadDir := dlDir }

/-- First upload: ten `A` bytes for file `f61`. -/
def outC6a : ServerState × ChunkHandlerResult × Disk × List ServerEvent :=
  chunk_upload_handler stC6 [] { transferId := "t6", fileId := "f61", token := "tok6" }
    [Except.ok (List.replicate 10 65)]

/-- Second upload: ten `B` bytes for file `f62`, on the disk left by the
first upload. -/
def outC6b : ServerState × ChunkHandlerResult × Disk × List ServerEvent :=
  chunk_upload_handler stC6 outC6a.2.2.1
    { transferId := "t6", fileId := "f62", token := "tok6" }
    [Except.ok (List.replicate 10 66)]

/-- A malformed request: duplicate file ids and a total size that is not
the sum of the file sizes. -/
def reqC7 : TransferRequest :=
  { transferId := "t7", senderName := some "mallory",
    files := [{ name := "a", size := 3, mimeType := none, id := "dup" },
              { name := "b", size := 4, mimeType := none, id := "dup" }],
    totalSize := 5 }

/-- The request handler run on the malformed request. -/
def outC7 : ServerState × TransferHandlerResult × List ServerEvent :=
  transfer_request_handler
    { settings := sampleSettings, pendingTransfers := [], approvedTokens := [],
      downloadDir := dlDir } reqC7 0 "ftok"

/-- Settings that list the sender's address as trusted. -/
def stC4 : ServerState :=
  { settings :=
      { port := 53317, deviceName := "gosh", downloadDir := dlDir,
        trustedHosts := ["192.168.1.5"], notificationsEnabled := true }
    pendingTransfers := [], approvedTokens := [], downloadDir := dlDir }

/-- A well-formed request from the trusted sender. -/
def reqC4 : TransferRequest :=
  { transferId := "t4", senderName := some "trusted-peer",
    files := [{ name := "a.bin", size := 1, mimeType := none, id := "f41" }],
    totalSize := 1 }

/-- The request handler run for the trusted sender. -/
def outC4 : ServerState × TransferHandlerResult × List ServerEvent :=
  transfer_request_handler stC4 reqC4 0 "fresh-token"

/-- Client environment: deterministic UUIDs, a 3-byte file, a peer that
accepts at once with token `tok`. -/
def envC3 : ClientEnv :=
  { gen := fun n => "uuid-" ++ toString n
    stat := fun _ => some 3
    readFile := fun _ => some [10, 20, 30]
    mimeGuess := fun _ => none
    peer := fun _ =>
      Except.ok { accepted := true, message := none, token := some "tok" }
    chunkAccepted := fun _ _ _ => true }

/-- The single path sent in the C3 scenario. -/
def pathC3 : RustPath := strToPath "/home/alice/a.txt"

/-- The request the C3 scenario puts on the wire. -/
def reqC3 : TransferRequest :=
  { transferId := "uuid-1", senderName := some "alice",
    files := [{ name := "a.txt", size := 3, mimeType := none, id := "uuid-0" }],
    totalSize := 3 }

/-- A request used in the C8 traces. -/
def reqC8 : TransferRequest :=
  { transferId := "t8", senderName := none,
    files := [{ name := "a", size := 1, mimeType := none, id := "f81" }],
    totalSize := 1 }

/-- Trace that re-posts `t8` after it was accepted. -/
def opsC8 : List EngineOp :=
  [EngineOp.request reqC8 0 "x", EngineOp.accept "t8" "tok8", EngineOp.request reqC8 1 "y"]

/-- Final state of the violating trace. -/
def finalC8 : EngineState := engineRun (initialEngineState sampleSettings) opsC8

/-- A second request with a fresh id, used in the id-fresh witness trace. -/
def reqC8b : TransferRequest :=
  { transferId := "t9", senderName := none,
    files := [{ name := "b", size := 2, mimeType := none, id := "f82" }],
    totalSize := 2 }

/-- An id-fresh trace exercising every transition. -/
def opsC8w : List EngineOp :=
  [EngineOp.request reqC8 0 "x", EngineOp.accept "t8" "tok8",
   EngineOp.request reqC8b 1 "y", EngineOp.reject "t9" "no thanks",
   EngineOp.complete "t8"]

/-- A sample history record. -/
def recC10 : TransferRecord :=
  { id := "h1", direction := TransferDirection.received,
    status := TransferStatus.completed, peerAddress := "192.168.1.7",
    files := [], totalSize := 1024, bytesTransferred := 1024,
    startedAt := 0, completedAt := some 1, error := none }

/-! ## Helper lemmas about the disk and the body stream -/

theorem lookupA_eraseA {κ α : Type} [DecidableEq κ] (k k' : κ) (m : List (κ × α)) :
    lookupA k (eraseA k' m) = if k' = k then none else lookupA k m := by
  induction m with
  | nil => simp [eraseA, lookupA]
  | cons p rest ih =>
    obtain ⟨pk, pv⟩ := p
    by_cases hpk : pk = k' <;> by_cases hk : k' = k <;>
      simp_all [eraseA, List.filter_cons, lookupA]

theorem lookupA_insertA_self {κ α : Type} [DecidableEq κ] (k : κ) (v : α) (m : List (κ × α)) :
    lookupA k (insertA k v m) = some v := by
  simp [insertA, lookupA]

theorem lookupA_insertA_ne {κ α : Type} [DecidableEq κ] (k k' : κ) (v : α) (m : List (κ × α))
    (h : k' ≠ k) : lookupA k (insertA k' v m) = lookupA k m := by
  simp [insertA, lookupA, if_neg h, lookupA_eraseA]

theorem foldl_normStep_no_parent (comps : List String) (acc : List String)
    (h : ∀ c ∈ comps, c ≠ "..") : comps.foldl normStep acc = acc ++ comps := by
  induction comps generalizing acc with
  | nil => simp
  | cons c rest ih =>
    have hc : c ≠ ".." := h c (List.mem_cons_self c rest)
    simp only [List.foldl_cons, normStep, if_neg hc]
    rw [ih (acc ++ [c]) (fun d hd => h d (List.mem_cons_of_mem c hd))]
    simp


theorem diskGet_diskPut_self (d : Disk) (p : RustPath) (b : Bytes) :
    diskGet (diskPut d p b) p = some b :=
  lookupA_insertA_self _ _ _

theorem diskGet_diskPut_ne (d : Disk) (p q : RustPath) (b : Bytes)
    (h : q.normalize ≠ p.normalize) : diskGet (diskPut d p b) q = diskGet d q :=
  lookupA_insertA_ne _ _ _ _ (Ne.symm h)

/-- The streaming loop only ever answers 200 or 500. -/
theorem writeStream_status (tid : String) (fi : TransferFile) (target : RustPath) :
    ∀ (body : List BodyChunk) (disk : Disk) (bytes : Nat) (evs : List ServerEvent),
    (writeStream tid fi target disk bytes evs body).1.status = 200 ∨
    (writeStream tid fi target disk bytes evs body).1.status = 500 := by
  intro body
  induction body with
  | nil => intro disk bytes evs; left; rfl
  | cons c rest ih =>
    intro disk bytes evs
    cases c with
    | ok data =>
      simp only [writeStream]
      exact ih _ _ _
    | error e => right; rfl

/-- Behaviour of the streaming loop on an error-free body: it answers
200 with the accumulated byte count, appends exactly the streamed bytes
to the target file, touches no other path, and emits only `Progress`
events. -/
theorem writeStream_allOk (tid : String) (fi : TransferFile) (target : RustPath) :
    ∀ (chunks : List Bytes) (disk : Disk) (bytes : Nat) (evs : List ServerEvent)
      (cur : Bytes), diskGet disk target = some cur →
    (writeStream tid fi target disk bytes evs (chunks.map Except.ok)).1.status = 200 ∧
    (writeStream tid fi target disk bytes evs (chunks.map Except.ok)).1.bytesReceived =
      some (bytes + (chunks.map List.length).sum) ∧
    (writeStream tid fi target disk bytes evs (chunks.map Except.ok)).1.file = some fi.name ∧
    diskGet (writeStream tid fi target disk bytes evs (chunks.map Except.ok)).2.1 target =
      some (cur ++ chunks.flatten) ∧
    (∀ q : RustPath, q.normalize ≠ target.normalize →
      diskGet (writeStream tid fi target disk bytes evs (chunks.map Except.ok)).2.1 q =
        diskGet disk q) ∧
    (∀ e ∈ (writeStream tid fi target disk bytes evs (chunks.map Except.ok)).2.2,
      (∃ p, e = ServerEvent.progress p) ∨ e ∈ evs) := by
  intro chunks
  induction chunks with
  | nil =>
    intro disk bytes evs cur hcur
    refine ⟨rfl, by simp [writeStream], rfl, by simpa [writeStream] using hcur, ?_, ?_⟩
    · intro q _; rfl
    · intro e he; right; simpa [writeStream] using he
  | cons data rest ih =>
    intro disk bytes evs cur hcur
    have happ : diskAppend disk target data = diskPut disk target (cur ++ data) := by
      simp [diskAppend, hcur]
    have hcur' : diskGet (diskAppend disk target data) target = some (cur ++ data) := by
      rw [happ]; exact diskGet_diskPut_self _ _ _
    simp only [List.map_cons, writeStream]
    obtain ⟨h200, hbytes, hfile, htarget, hother, hevs⟩ :=
      ih (diskAppend disk target data) (bytes + data.length)
        (evs ++ [ServerEvent.progress
          { transferId := tid, currentFile := some fi.name,
            bytesTransferred := bytes + data.length, totalBytes := fi.size, speedBps := 0 }])
        (cur ++ data) hcur'
    refine ⟨h200, ?_, hfile, ?_, ?_, ?_⟩
    · rw [hbytes]; simp [Nat.add_assoc]
    · rw [htarget]; simp
    · intro q hq
      rw [hother q hq, happ, diskGet_diskPut_ne _ _ _ _ hq]
    · intro e he
      rcases hevs e he with hp | hmem
      · exact Or.inl hp
      · rcases List.mem_append.mp hmem with h1 | h2
        · exact Or.inr h1
        · exact Or.inl ⟨_, List.mem_singleton.mp h2⟩

/-- A successful chunk upload: correct token, known transfer and file,
error-free body.  The handler answers 200 with the streamed byte count —
whatever the declared size — stores exactly the streamed bytes at
`download_dir.join(name)`, replacing any previous content of that path,
touches no other path, emits only `Progress` events, and leaves the
server maps untouched. -/
theorem chunk_upload_handler_ok (st : ServerState) (disk : Disk) (params : ChunkParams)
    (body : List BodyChunk) (transfer : PendingTransfer) (file_info : TransferFile)
    (chunks : List Bytes)
    (htok : lookupA params.transferId st.approvedTokens = some params.token)
    (htr : lookupA params.transferId st.pendingTransfers = some transfer)
    (hfi : transfer.files.find? (fun f => f.id = params.fileId) = some file_info)
    (hbody : body = chunks.map Except.ok) :
    (chunk_upload_handler st disk params body).1 = st ∧
    (chunk_upload_handler st disk params body).2.1.status = 200 ∧
    (chunk_upload_handler st disk params body).2.1.bytesReceived =
      some (chunks.map List.length).sum ∧
    diskGet (chunk_upload_handler st disk params body).2.2.1
      (targetOf st.downloadDir file_info.name) = some chunks.flatten ∧
    (∀ q : RustPath, q.normalize ≠ (targetOf st.downloadDir file_info.name).normalize →
      diskGet (chunk_upload_handler st disk params body).2.2.1 q = diskGet disk q) ∧
    (∀ e ∈ (chunk_upload_handler st disk params body).2.2.2,
      ∃ p, e = ServerEvent.progress p) := by
  subst hbody
  simp only [chunk_upload_handler]
  rw [if_neg (by simp [htok])]
  simp only [htr, hfi]
  obtain ⟨h200, hbytes, _hfile, htarget, hother, hevs⟩ :=
    writeStream_allOk params.transferId file_info
      (st.downloadDir.join (strToPath file_info.name)) chunks
      (diskPut disk (st.downloadDir.join (strToPath file_info.name)) []) 0 [] []
      (diskGet_diskPut_self _ _ _)
  refine ⟨by trivial, h200, by simpa using hbytes, by simpa [targetOf] using htarget, ?_, ?_⟩
  · intro q hq
    rw [hother q (by simpa [targetOf] using hq)]
    exact diskGet_diskPut_ne _ _ _ _ (by simpa [targetOf] using hq)
  · intro e he
    rcases hevs e he with hp | hmem
    · exact hp
    · simp at hmem

/-- C5: chunk-upload authorization.  On a missing or mismatched token
the handler answers 401, changes nothing (no file, maps untouched) and
emits no event; when the stored token matches the supplied one the
handler never answers 401. -/
theorem c5_chunk_token_authorization (st : ServerState) (disk : Disk) (params : ChunkParams)
    (body : List BodyChunk) :
    (lookupA params.transferId st.approvedTokens ≠ some params.token →
      chunk_upload_handler st disk params body =
        (st, { status := 401, file := none, bytesReceived := none,
               error := some "Invalid or expired token" }, disk, [])) ∧
    (lookupA params.transferId st.approvedTokens = some params.token →
      (chunk_upload_handler st disk params body).2.1.status ≠ 401) := by
  constructor
  · intro h
    simp only [chunk_upload_handler]
    rw [if_pos h]
  · intro h
    simp only [chunk_upload_handler]
    rw [if_neg (by simp [h])]
    cases htr : lookupA params.transferId st.pendingTransfers with
    | none => simp
    | some transfer =>
      cases hfi : transfer.files.find? (fun f => f.id = params.fileId) with
      | none => simp [hfi]
      | some file_info =>
        rcases writeStream_status params.transferId file_info
            (st.downloadDir.join (strToPath file_info.name)) body
            (diskPut disk (st.downloadDir.join (strToPath file_info.name)) []) 0 [] with
          h2 | h5
        · simp [hfi, h2]
        · simp [hfi, h5]

/-- C5 witness: with stored token `good` for `t5`, a request carrying
`bad` is answered 401 and changes nothing, while a request carrying
`good` is not answered 401. -/
theorem c5_chunk_token_authorization_witness :
    chunk_upload_handler stC5 [] { transferId := "t5", fileId := "f5", token := "bad" }
        [Except.ok [1]] =
      (stC5, { status := 401, file := none, bytesReceived := none,
               error := some "Invalid or expired token" }, [], []) ∧
    (chunk_upload_handler stC5 [] { transferId := "t5", fileId := "f5", token := "good" }
        [Except.ok [1]]).2.1.status ≠ 401 := by
  constructor
  · exact (c5_chunk_token_authorization stC5 []
      { transferId := "t5", fileId := "f5", token := "bad" } [Except.ok [1]]).1 (by decide)
  · exact (c5_chunk_token_authorization stC5 []
      { transferId := "t5", fileId := "f5", token := "good" } [Except.ok [1]]).2 (by decide)

/-- The chunk handler never answers 400: its only statuses are 401, 404,
200 and 500 — there is no path-traversal refusal in the source. -/
theorem chunk_upload_handler_no_400 (st : ServerState) (disk : Disk) (params : ChunkParams)
    (body : List BodyChunk) :
    (chunk_upload_handler st disk params body).2.1.status ≠ 400 := by
  by_cases h : lookupA params.transferId st.approvedTokens ≠ some params.token
  · simp only [chunk_upload_handler]
    rw [if_pos h]
    simp
  · simp only [chunk_upload_handler]
    rw [if_neg h]
    cases htr : lookupA params.transferId st.pendingTransfers with
    | none => simp
    | some transfer =>
      cases hfi : transfer.files.find? (fun f => f.id = params.fileId) with
      | none => simp [hfi]
      | some file_info =>
        rcases writeStream_status params.transferId file_info
            (st.downloadDir.join (strToPath file_info.name)) body
            (diskPut disk (st.downloadDir.join (strToPath file_info.name)) []) 0 [] with
          h2 | h5
        · simp [hfi, h2]
        · simp [hfi, h5]

/-- C1 counterexample: for the declared name `../evil.txt` the handler
answers 200 (not 400), the written target resolves to
`/home/user/evil.txt` — outside the download directory — the file is
created there, and the target is not `download_dir/basename(name)`. -/
theorem c1_counterexample_traversal_not_refused :
    outC1.2.1.status = 200 ∧
    under dlDir (targetOf dlDir "../evil.txt") = false ∧
    (targetOf dlDir "../evil.txt").normalize = strToPath "/home/user/evil.txt" ∧
    diskGet outC1.2.2.1 (targetOf dlDir "../evil.txt") = some [65] ∧
    (strToPath "../evil.txt").fileName = some "evil.txt" ∧
    targetOf dlDir "../evil.txt" ≠ RustPath.join dlDir (strToPath "evil.txt") := by
  decide

/-- C1 amended: the target is `download_dir.join(name)` with the declared
name used verbatim — no basename, no traversal guard — and the handler
never refuses with 400; the resolved target stays under `download_dir`
exactly in the benign case, i.e. when the declared name is relative and
free of `..` components (and the download directory itself is an
absolute, `..`-free path). -/
theorem c1_join_verbatim_no_guard (st : ServerState) (disk : Disk) (params : ChunkParams)
    (body : List BodyChunk) (name : String)
    (h1 : (strToPath name).absolute = false)
    (h2 : ".." ∉ (strToPath name).components)
    (h3 : st.downloadDir.absolute = true)
    (h4 : ".." ∉ st.downloadDir.components) :
    (chunk_upload_handler st disk params body).2.1.status ≠ 400 ∧
    under st.downloadDir (targetOf st.downloadDir name) = true := by
  refine ⟨chunk_upload_handler_no_400 st disk params body, ?_⟩
  have hxname : ∀ c ∈ (strToPath name).components, c ≠ ".." := by
    intro c hc hcontra; exact h2 (hcontra ▸ hc)
  have hxdl : ∀ c ∈ st.downloadDir.components, c ≠ ".." := by
    intro c hc hcontra; exact h4 (hcontra ▸ hc)
  have hxall : ∀ c ∈ st.downloadDir.components ++ (strToPath name).components, c ≠ ".." := by
    intro c hc
    rcases List.mem_append.mp hc with h | h
    · exact hxdl c h
    · exact hxname c h
  have hjoin : targetOf st.downloadDir name =
      { absolute := st.downloadDir.absolute
        components := st.downloadDir.components ++ (strToPath name).components } := by
    simp [targetOf, RustPath.join, h1]
  rw [hjoin]
  simp only [under, RustPath.normalize]
  rw [foldl_normStep_no_parent _ [] hxall, foldl_normStep_no_parent _ [] hxdl, h3]
  simp [List.isPrefixOf_iff_prefix]

/-- C1 witness: the benign name `a.bin` lands inside the download
directory, and the concrete handler run is not refused with 400. -/
theorem c1_join_verbatim_no_guard_witness :
    (chunk_upload_handler stC1 [] { transferId := "t1", fileId := "f11", token := "tok1" }
      [Except.ok [65]]).2.1.status ≠ 400 ∧
    under stC1.downloadDir (targetOf stC1.downloadDir "a.bin") = true :=
  c1_join_verbatim_no_guard stC1 [] { transferId := "t1", fileId := "f11", token := "tok1" }
    [Except.ok [65]] "a.bin" (by decide) (by decide) (by decide) (by decide)

/-- C2 counterexample: the file declares size 100 but the sender streams
99 bytes; the handler still answers 200 with `bytes_received = 99`, keeps
the 99-byte file on disk, and emits a single `Progress` event — no 500,
no deletion, no failure event. -/
theorem c2_counterexample_short_body_accepted :
    outC2.2.1.status = 200 ∧
    outC2.2.1.bytesReceived = some 99 ∧
    (99 : Nat) ≠ 100 ∧
    diskGet outC2.2.2.1 (targetOf dlDir "a.bin") = some (List.replicate 99 66) ∧
    outC2.2.2.2 = [ServerEvent.progress
      { transferId := "t2", currentFile := some "a.bin", bytesTransferred := 99,
        totalBytes := 100, speedBps := 0 }] := by
  decide

/-- C2 amended: at end-of-stream the handler makes no comparison with the
declared size — an error-free body of any length is answered 200 with
`bytes_received` equal to the streamed byte count, the streamed bytes are
kept on disk, and no `TransferFailed` event is emitted. -/
theorem c2_no_size_verification (st : ServerState) (disk : Disk) (params : ChunkParams)
    (body : List BodyChunk) (transfer : PendingTransfer) (file_info : TransferFile)
    (chunks : List Bytes)
    (htok : lookupA params.transferId st.approvedTokens = some params.token)
    (htr : lookupA params.transferId st.pendingTransfers = some transfer)
    (hfi : transfer.files.find? (fun f => f.id = params.fileId) = some file_info)
    (hbody : body = chunks.map Except.ok)
    (_hsize : (chunks.map List.length).sum ≠ file_info.size) :
    (chunk_upload_handler st disk params body).2.1.status = 200 ∧
    (chunk_upload_handler st disk params body).2.1.bytesReceived =
      some (chunks.map List.length).sum ∧
    diskGet (chunk_upload_handler st disk params body).2.2.1
      (targetOf st.downloadDir file_info.name) = some chunks.flatten ∧
    (∀ e ∈ (chunk_upload_handler st disk params body).2.2.2,
      ∀ tid err, e ≠ ServerEvent.transferFailed tid err) := by
  obtain ⟨-, h200, hb, ht, -, hevs⟩ :=
    chunk_upload_handler_ok st disk params body transfer file_info chunks htok htr hfi hbody
  refine ⟨h200, hb, ht, ?_⟩
  intro e he tid err hcontra
  obtain ⟨p, hp⟩ := hevs e he
  subst hcontra
  cases hp

/-- C2 witness: the 99-of-100 scenario satisfies the hypotheses of the
amended theorem, which therefore yields the 200 answer with 99 bytes. -/
theorem c2_no_size_verification_witness :
    outC2.2.1.status = 200 ∧
    outC2.2.1.bytesReceived = some ([List.replicate 99 66].map List.length).sum ∧
    diskGet outC2.2.2.1 (targetOf stC2.downloadDir "a.bin") =
      some [List.replicate 99 66].flatten ∧
    (∀ e ∈ outC2.2.2.2, ∀ tid err, e ≠ ServerEvent.transferFailed tid err) :=
  c2_no_size_verification stC2 [] { transferId := "t2", fileId := "f2", token := "tok2" }
    [Except.ok (List.replicate 99 66)] pendingC2
    { name := "a.bin", size := 100, mimeType := none, id := "f2" }
    [List.replicate 99 66] (by decide) (by decide) (by decide) rfl (by decide)

/-- C6 counterexample: two files of one approved transfer both named
`report.pdf` are uploaded in sequence (payloads `A`×10 then `B`×10); both
uploads answer 200, both write to the same target, the final disk holds
only the second payload at `report.pdf`, and no `report (1).pdf` exists. -/
theorem c6_counterexample_overwrite :
    outC6a.2.1.status = 200 ∧
    outC6b.2.1.status = 200 ∧
    diskGet outC6b.2.2.1 (targetOf dlDir "report.pdf") = some (List.replicate 10 66) ∧
    diskGet outC6b.2.2.1 (strToPath "/home/user/Downloads/report (1).pdf") = none ∧
    outC6b.2.2.1 =
      [((targetOf dlDir "report.pdf").normalize, List.replicate 10 66)] := by
  decide

/-- C6 amended: there is no `name (k).ext` renaming.  Even when the
target path already holds a file, a successful upload writes
`download_dir.join(name)` in place: afterwards the target holds exactly
the new payload (the previous content is gone) and no other path — in
particular no suffixed variant — has changed. -/
theorem c6_no_collision_rename (st : ServerState) (disk : Disk) (params : ChunkParams)
    (body : List BodyChunk) (transfer : PendingTransfer) (file_info : TransferFile)
    (chunks : List Bytes) (prior : Bytes)
    (htok : lookupA params.transferId st.approvedTokens = some params.token)
    (htr : lookupA params.transferId st.pendingTransfers = some transfer)
    (hfi : transfer.files.find? (fun f => f.id = params.fileId) = some file_info)
    (hbody : body = chunks.map Except.ok)
    (_hprior : diskGet disk (targetOf st.downloadDir file_info.name) = some prior) :
    diskGet (chunk_upload_handler st disk params body).2.2.1
      (targetOf st.downloadDir file_info.name) = some chunks.flatten ∧
    (∀ q : RustPath, q.normalize ≠ (targetOf st.downloadDir file_info.name).normalize →
      diskGet (chunk_upload_handler st disk params body).2.2.1 q = diskGet disk q) := by
  obtain ⟨-, -, -, ht, hother, -⟩ :=
    chunk_upload_handler_ok st disk params body transfer file_info chunks htok htr hfi hbody
  exact ⟨ht, hother⟩

/-- C6 witness: the second `report.pdf` upload of the concrete collision
scenario replaces the ten `A` bytes with the ten `B` bytes and leaves the
rest of the disk unchanged. -/
theorem c6_no_collision_rename_witness :
    diskGet outC6b.2.2.1 (targetOf stC6.downloadDir "report.pdf") =
      some [List.replicate 10 66].flatten ∧
    (∀ q : RustPath, q.normalize ≠ (targetOf stC6.downloadDir "report.pdf").normalize →
      diskGet outC6b.2.2.1 q = diskGet outC6a.2.2.1 q) :=
  c6_no_collision_rename stC6 outC6a.2.2.1
    { transferId := "t6", fileId := "f62", token := "tok6" }
    [Except.ok (List.replicate 10 66)] pendingC6
    { name := "report.pdf", size := 10, mimeType := none, id := "f62" }
    [List.replicate 10 66] (List.replicate 10 65)
    (by decide) (by decide) (by decide) rfl (by decide)

/-- C7 counterexample: a request whose `total_size` (5) differs from the
sum of its file sizes (7) and whose two files share the id `dup` is not
rejected: the handler answers 200, stores it as pending, and replies
`accepted=false` (awaiting approval) rather than 400. -/
theorem c7_counterexample_invalid_request_stored :
    reqC7.totalSize ≠ (reqC7.files.map TransferFile.size).sum ∧
    reqC7.files.map TransferFile.id = ["dup", "dup"] ∧
    outC7.2.1.status = 200 ∧
    outC7.2.1.response.accepted = false ∧
    memA "t7" outC7.1.pendingTransfers = true := by
  decide

/-- C7 amended: the request handler performs no validation at all — every
request, whatever its `total_size` or file ids, is stored as pending
under its `transfer_id` and answered 200 with `accepted=false`; the
approved map is never touched. -/
theorem c7_no_request_validation (st : ServerState) (request : TransferRequest)
    (now : Nat) (freshToken : String) :
    (transfer_request_handler st request now freshToken).1.pendingTransfers =
      insertA request.transferId
        { id := request.transferId, sourceIp := "unknown",
          senderName := request.senderName, files := request.files,
          totalSize := request.totalSize, receivedAt := now }
        st.pendingTransfers ∧
    (transfer_request_handler st request now freshToken).1.approvedTokens =
      st.approvedTokens ∧
    (transfer_request_handler st request now freshToken).2.1.status = 200 ∧
    (transfer_request_handler st request now freshToken).2.1.response.accepted = false :=
  ⟨rfl, rfl, rfl, rfl⟩

/-- C4: although the sender's address is listed in `trusted_hosts`, the
handler does not auto-accept: `is_trusted` is hard-coded `false`
(`server.rs` line 146, `// TODO: Check against trusted_hosts`), so the
request is answered `accepted=false` without a token, no approval is
stored, and a pending record is created instead.  The handler does not
even receive the sender's IP. -/
theorem c4_trusted_host_not_auto_accepted :
    stC4.settings.trustedHosts = ["192.168.1.5"] ∧
    outC4.2.1.response.accepted = false ∧
    outC4.2.1.response.token = none ∧
    outC4.1.approvedTokens = [] ∧
    memA "t4" outC4.1.pendingTransfers = true := by
  decide

/-- C3: in the concrete accepted-transfer run, the `/transfer` request
carries `uuid-1` while the subsequent `/chunk` upload carries the freshly
generated `uuid-2` — the request's transfer id is not reused
(`client.rs` line 301, `// This should come from the request`). -/
theorem c3_chunk_upload_uses_fresh_transfer_id :
    (send_files envC3 [pathC3] (some "alice")).1 = Except.ok () ∧
    (send_files envC3 [pathC3] (some "alice")).2 =
      [WireMsg.transferPost reqC3,
       WireMsg.chunkPost "uuid-2" "uuid-0" "tok" [10, 20, 30]] ∧
    reqC3.transferId = "uuid-1" ∧
    ("uuid-2" : String) ≠ "uuid-1" := by
  refine ⟨rfl, by decide, by decide, by decide⟩

/-- C9: a literal address is returned as the sole resolved IP (rendered
back to text), and `resolve_address` never reports success together with
an empty `ips` list. -/
theorem c9_resolve_address_literal_sole_ip {α : Type} (parseIp : String → Option α)
    (ipToString : α → String) (lookupHost : String → Except String (List String))
    (address : String) :
    (∀ ip, parseIp address = some ip →
      resolve_address parseIp ipToString lookupHost address =
        { hostname := address, ips := [ipToString ip], success := true, error := none }) ∧
    ((resolve_address parseIp ipToString lookupHost address).success = true →
      (resolve_address parseIp ipToString lookupHost address).ips ≠ []) := by
  constructor
  · intro ip h
    simp [resolve_address, h]
  · intro hs
    cases hp : parseIp address with
    | some ip => simp [resolve_address, hp]
    | none =>
      cases hl : lookupHost address with
      | ok addrs =>
        by_cases he : addrs.isEmpty
        · exfalso
          simp [resolve_address, hp, hl, he] at hs
        · simp only [resolve_address, hp, hl, if_neg he]
          exact fun hc => he (by simp [hc])
      | error e =>
        exfalso
        simp [resolve_address, hp, hl] at hs

/-- C9 witness: the literal `127.0.0.1` resolves to itself as the sole
IP with `success = true`. -/
theorem c9_resolve_address_literal_sole_ip_witness :
    resolve_address (fun s => if s = "127.0.0.1" then some s else none) id
        (fun _ => Except.error "unreachable") "127.0.0.1" =
      { hostname := "127.0.0.1", ips := ["127.0.0.1"], success := true, error := none } :=
  (c9_resolve_address_literal_sole_ip (fun s => if s = "127.0.0.1" then some s else none)
    id (fun _ => Except.error "unreachable") "127.0.0.1").1 "127.0.0.1" (by decide)

/-- The enforcement loop caps the list at `MAX_HISTORY_ENTRIES`. -/
theorem enforceMaxEntries_length (l : List TransferRecord) :
    (enforceMaxEntries l).length ≤ MAX_HISTORY_ENTRIES := by
  induction l using enforceMaxEntries.induct with
  | case1 l h ih =>
    rw [enforceMaxEntries, if_pos h]
    exact ih
  | case2 l h =>
    rw [enforceMaxEntries, if_neg h]
    omega

/-- The enforcement loop only drops elements from the front. -/
theorem enforceMaxEntries_suffix (l : List TransferRecord) :
    enforceMaxEntries l <:+ l := by
  induction l using enforceMaxEntries.induct with
  | case1 l h ih =>
    rw [enforceMaxEntries, if_pos h]
    exact ih.trans (List.tail_suffix l)
  | case2 l h =>
    rw [enforceMaxEntries, if_neg h]

/-- Below the cap the enforcement loop is the identity. -/
theorem enforceMaxEntries_of_le (l : List TransferRecord)
    (h : l.length ≤ MAX_HISTORY_ENTRIES) : enforceMaxEntries l = l := by
  rw [enforceMaxEntries, if_neg (by omega)]

/-- C10: after every `add` the history holds at most 100 records; the
result is a suffix of `records ++ [record]` (so only the oldest entries,
at the front, are dropped and the relative order of survivors is kept),
and below the cap nothing is dropped at all. -/
theorem c10_history_capped_at_100 (records : List TransferRecord) (record : TransferRecord) :
    (HistoryStore.add records record).length ≤ MAX_HISTORY_ENTRIES ∧
    HistoryStore.add records record <:+ records ++ [record] ∧
    (records.length < MAX_HISTORY_ENTRIES →
      HistoryStore.add records record = records ++ [record]) := by
  refine ⟨enforceMaxEntries_length _, enforceMaxEntries_suffix _, ?_⟩
  intro h
  have hlen : (records ++ [record]).length = records.length + 1 := by simp
  exact enforceMaxEntries_of_le _ (by omega)

/-- C10 witness: adding to an empty history keeps the single record. -/
theorem c10_history_capped_at_100_witness :
    (HistoryStore.add [] recC10).length ≤ MAX_HISTORY_ENTRIES ∧
    HistoryStore.add [] recC10 <:+ [] ++ [recC10] ∧
    (([] : List TransferRecord).length < MAX_HISTORY_ENTRIES →
      HistoryStore.add [] recC10 = [] ++ [recC10]) :=
  c10_history_capped_at_100 [] recC10

/-! ## Lemmas for the engine state machine -/

theorem memA_insertA_self {κ α : Type} [DecidableEq κ] (k : κ) (v : α)
    (m : List (κ × α)) : memA k (insertA k v m) = true := by
  simp [memA, lookupA_insertA_self]

theorem memA_insertA_ne {κ α : Type} [DecidableEq κ] {k k' : κ} (v : α)
    (m : List (κ × α)) (h : k' ≠ k) : memA k (insertA k' v m) = memA k m := by
  simp [memA, lookupA_insertA_ne _ _ _ _ h]

theorem memA_eraseA_self {κ α : Type} [DecidableEq κ] (k : κ)
    (m : List (κ × α)) : memA k (eraseA k m) = false := by
  simp [memA, lookupA_eraseA]

theorem memA_eraseA_ne {κ α : Type} [DecidableEq κ] {k k' : κ}
    (m : List (κ × α)) (h : k' ≠ k) : memA k (eraseA k' m) = memA k m := by
  simp [memA, lookupA_eraseA, h]

/-- The request handler only inserts the pending record. -/
theorem transfer_request_handler_state (st : ServerState) (req : TransferRequest)
    (now : Nat) (tok : String) :
    (transfer_request_handler st req now tok).1 =
      { st with pendingTransfers := insertA req.transferId (pendingOfRequest req now) st.pendingTransfers } :=
  rfl

/-- One engine transition preserves the separation invariant, provided a
`request` transition only carries an id fresh for all three
collections. -/
theorem separation_step (s : EngineState) (op : EngineOp)
    (hs : Separation s) (hop : freshAlong s [op] = true) :
    Separation (engineStep s op) := by
  cases op with
  | request req now tok =>
    simp only [freshAlong, Bool.and_eq_true, Bool.not_eq_true'] at hop
    obtain ⟨⟨⟨hp, ha⟩, hr⟩, -⟩ := hop
    have e : engineStep s (EngineOp.request req now tok) =
        { s with server :=
            { s.server with pendingTransfers := insertA req.transferId (pendingOfRequest req now) s.server.pendingTransfers } } :=
      rfl
    rw [e]
    intro k
    by_cases hk : req.transferId = k
    · subst hk
      refine ⟨?_, ?_, (hs req.transferId).2.2⟩
      · simp [ha]
      · simp [hr]
    · simpa [memA_insertA_ne _ _ hk] using hs k
  | accept tid token =>
    by_cases hmem : memA tid s.server.pendingTransfers = true
    · have e : engineStep s (EngineOp.accept tid token) =
          { s with server :=
              { s.server with
                pendingTransfers := eraseA tid s.server.pendingTransfers
                approvedTokens := insertA tid token s.server.approvedTokens } } := by
        simp [engineStep, hmem]
      rw [e]
      intro k
      by_cases hk : tid = k
      · subst hk
        have hrj : memA tid s.rejected = false := by
          cases hb : memA tid s.rejected
          · rfl
          · exact absurd ⟨hmem, hb⟩ (hs tid).2.1
        refine ⟨?_, ?_, ?_⟩
        · simp [memA_eraseA_self]
        · simp [memA_eraseA_self]
        · simp [hrj]
      · simpa [memA_eraseA_ne _ hk, memA_insertA_ne _ _ hk] using hs k
    · have e : engineStep s (EngineOp.accept tid token) = s := by
        simp [engineStep, hmem]
      rw [e]; exact hs
  | reject tid reason =>
    by_cases hmem : memA tid s.server.pendingTransfers = true
    · have e : engineStep s (EngineOp.reject tid reason) =
          { s with
            server := { s.server with
              pendingTransfers := eraseA tid s.server.pendingTransfers }
            rejected := insertA tid reason s.rejected } := by
        simp [engineStep, hmem]
      rw [e]
      intro k
      by_cases hk : tid = k
      · subst hk
        have hap : memA tid s.server.approvedTokens = false := by
          cases hb : memA tid s.server.approvedTokens
          · rfl
          · exact absurd ⟨hmem, hb⟩ (hs tid).1
        refine ⟨?_, ?_, ?_⟩
        · simp [memA_eraseA_self]
        · simp [memA_eraseA_self]
        · simp [hap]
      · simpa [memA_eraseA_ne _ hk, memA_insertA_ne _ _ hk] using hs k
    · have e : engineStep s (EngineOp.reject tid reason) = s := by
        simp [engineStep, hmem]
      rw [e]; exact hs
  | complete tid =>
    intro k
    by_cases hk : tid = k
    · subst hk
      refine ⟨?_, ?_, ?_⟩ <;> simp [engineStep, memA_eraseA_self]
    · simpa [engineStep, memA_eraseA_ne _ hk] using hs k
  | fail tid err =>
    intro k
    by_cases hk : tid = k
    · subst hk
      refine ⟨?_, ?_, ?_⟩ <;> simp [engineStep, memA_eraseA_self]
    · simpa [engineStep, memA_eraseA_ne _ hk, memA_insertA_ne _ _ hk] using hs k

/-- C8 counterexample: the trace request(`t8`) → accept(`t8`) →
request(`t8`) leaves `t8` simultaneously in the pending map and the
approved map — the request handler re-inserts a pending record for an
id that is already approved, so the separation invariant fails in a
reachable state. -/
theorem c8_counterexample_repost_after_accept :
    memA "t8" finalC8.server.pendingTransfers = true ∧
    memA "t8" finalC8.server.approvedTokens = true ∧
    ¬ Separation finalC8 := by
  refine ⟨by decide, by decide, fun h => (h "t8").1 ⟨by decide, by decide⟩⟩

/-- C8 amended: along any trace in which every `/transfer` request
carries a transfer id fresh for all three collections, every reachable
state keeps each transfer id in at most one of
{pending, approved, rejected}. -/
theorem c8_separation_under_fresh_ids (s : EngineState) (ops : List EngineOp)
    (hs : Separation s) (hf : freshAlong s ops = true) :
    Separation (engineRun s ops) := by
  induction ops generalizing s with
  | nil => exact hs
  | cons op rest ih =>
    simp only [freshAlong, Bool.and_eq_true] at hf
    obtain ⟨hop, hrest⟩ := hf
    have h1 : freshAlong s [op] = true := by
      simp [freshAlong, hop]
    rw [engineRun, List.foldl_cons]
    exact ih (engineStep s op) (separation_step s op hs h1) hrest

/-- C8 witness: a fresh-id trace through request, accept, reject and
complete keeps the three collections disjoint. -/
theorem c8_separation_under_fresh_ids_witness :
    freshAlong (initialEngineState sampleSettings) opsC8w = true ∧
    Separation (engineRun (initialEngineState sampleSettings) opsC8w) := by
  constructor
  · decide
  · apply c8_separation_under_fresh_ids
    · intro k
      refine ⟨?_, ?_, ?_⟩ <;> simp [initialEngineState, memA, lookupA]
    · decide

end GoshTransfer
